import Mathlib

/-!
Verification of `codalab/lib/worksheet_util.py` (worksheet line classifier,
directive expander, line renderer, and the form-session no-change check).

Strings are modelled as lists of characters (`PyStr`).  Every regular
expression the source compiles is small and is embedded as a deterministic
matching function whose result provably coincides with Python `re` semantics
(leftmost match, greedy subpatterns with backtracking, `re.match` anchoring
at the start, `.` not matching a newline unless `re.DOTALL` is given).

The source runs on CPython 2 (it writes `str` data to a binary temp file and
compares bytes read back with `str` lines, which only type-checks on
Python 2).  `parse_worksheet_parse_table` is a plain dict, so the classifier
tries the patterns in the dict's iteration order.  For these five string
keys CPython 2's string hash places them, on 32-bit and 64-bit builds alike,
in the iteration order: title, description, field, bundle, display — not the
source-text insertion order.  The classifier below hard-codes that order.
-/

/-- A Python (byte) string, as a list of characters. -/
abbrev PyStr := List Char

/-- The characters Python's `str.strip()` (and `\s` in an ASCII pattern)
treats as whitespace. -/
def isPySpace (c : Char) : Bool :=
  c = ' ' || c = '\t' || c = '\n' || c = '\r' || c = '\x0b' || c = '\x0c'

/-- Python's `str.strip()`: drop whitespace from both ends. -/
def pyStrip (l : PyStr) : PyStr :=
  ((l.dropWhile isPySpace).reverse.dropWhile isPySpace).reverse

/-- Match a literal at the head of the input; on success return the rest.
Used to embed the literal pieces of the source's regular expressions. -/
def dropLit : PyStr → PyStr → Option PyStr
  | [], l => some l
  | _ :: _, [] => none
  | c :: pat, x :: l => if x = c then dropLit pat l else none

/-- Embedding of `re.match` of `%\s*<kw>\s*(.*)` (the shape of `WORKSHEET_TITLE_FIELD`
and `WORKSHEET_DESCRIPTION_FIELD`, with `kw` = `title:` or `description:`).
`\s*` is greedy and no backtracking into it can succeed because the keyword
starts with a non-space character; `(.*)` is greedy and stops at a newline.
Returns group 1. -/
def titleLikeAt (kw : PyStr) (l : PyStr) : Option PyStr :=
  match l with
  | [] => none
  | c :: rest =>
    if c = '%' then
      match dropLit kw (rest.dropWhile isPySpace) with
      | some r2 => some ((r2.dropWhile isPySpace).takeWhile (fun c => c ≠ '\n'))
      | none => none
    else none

/-- Embedding of `re.match` of `BUNDLE_DISPLAY_DIRECTIVE` = `% display (table|default|inline)`:
the literal must sit at the start of the input (anchored by `re.match`), the
alternatives are tried left to right, and nothing after the mode is
consumed.  Returns (group 0, group 1). -/
def displayAt (l : PyStr) : Option (PyStr × PyStr) :=
  match dropLit ("% display ".data) l with
  | none => none
  | some r =>
    match dropLit ("table".data) r with
    | some _ => some (("% display table").data, ("table").data)
    | none =>
      match dropLit ("default".data) r with
      | some _ => some (("% display default").data, ("default").data)
      | none =>
        match dropLit ("inline".data) r with
        | some _ => some (("% display inline").data, ("inline").data)
        | none => none

/-- The common core of `re.match` of `BUNDLE_DISPLAY_FIELD` =
`% ([^\:]+): (image|metadata)/(.*)`.  `([^\:]+)` is a greedy nonempty run
of non-colon characters; since the class excludes the colon the only viable
match ends at the first colon.  Returns (group 1, group 2, everything after
the slash); the caller decides how far group 3 extends (`.` stops at a
newline without `re.DOTALL`, and runs to the end of the string with it). -/
def fieldAtCore (l : PyStr) : Option (PyStr × PyStr × PyStr) :=
  match dropLit ("% ".data) l with
  | none => none
  | some rest =>
    let name := rest.takeWhile (fun c => c ≠ ':')
    if name = [] then none
    else
      match dropLit (": ".data) (rest.dropWhile (fun c => c ≠ ':')) with
      | none => none
      | some r2 =>
        match dropLit ("image/".data) r2 with
        | some r3 => some (name, ("image").data, r3)
        | none =>
          match dropLit ("metadata/".data) r2 with
          | some r3 => some (name, ("metadata").data, r3)
          | none => none

/-- Embedding of `re.match` of `BUNDLE_DISPLAY_FIELD` as compiled (without `re.DOTALL`)
in `parse_worksheet_parse_table_exprs`: group 3 stops at a newline.
Returns group 0, which is all the classifier's constructor uses. -/
def fieldAtLine (l : PyStr) : Option PyStr :=
  (fieldAtCore l).map (fun x =>
    let path := x.2.2.takeWhile (fun c => c ≠ '\n')
    '%' :: ' ' :: (x.1 ++ ':' :: ' ' :: (x.2.1 ++ '/' :: path)))

/-- Match `\s*\{(.*)\}$` (the tail of `BUNDLE_LINE_REGEX`).  `\s*` is greedy
and cannot usefully backtrack (a shorter run leaves a whitespace character
where `{` is required).  `(.*)\}$` forces the closing brace to be the last
character, with no newline inside group 3 (`.` does not match newlines and
the(stripped) input cannot end in a newline, so `$` means end of string).
Returns group 3. -/
def matchBraces (t : PyStr) : Option PyStr :=
  match t.dropWhile isPySpace with
  | [] => none
  | c :: u =>
    if c = '{' then
      match u.reverse with
      | [] => none
      | d :: revInner =>
        if d = '}' ∧ revInner.contains '\n' = false then some revInner.reverse
        else none
    else none

/-- Backtracking over the candidate positions of `\]` for the greedy
`\[(.*)\]` of `BUNDLE_LINE_REGEX`: positions are tried longest-first. -/
def tryCloses (rest : PyStr) : List Nat → Option (PyStr × PyStr)
  | [] => none
  | k :: ks =>
    match matchBraces (rest.drop (k + 1)) with
    | some b => some (rest.take k, b)
    | none => tryCloses rest ks

/-- The branch of `BUNDLE_LINE_REGEX` in which the optional group
`(\[(.*)\])` is present: a `[` at the start, a greedy `(.*)` (so the
closing `]` candidates are tried from the last one backwards, each
followed by `\s*\{(.*)\}$`), where `(.*)` cannot cross a newline. -/
def bundleBranchA (l : PyStr) : Option (PyStr × PyStr) :=
  match l with
  | [] => none
  | c :: rest =>
    if c = '[' then
      let seg := rest.takeWhile (fun c => c ≠ '\n')
      tryCloses rest (((List.range seg.length).filter
        (fun k => seg.get? k = some ']')).reverse)
    else none

/-- Embedding of `re.match` of `BUNDLE_LINE_REGEX` = `^(\[(.*)\])?\s*\{(.*)\}$` on the
(already stripped) line.  The optional group is tried present-first; when
it is absent the whole line must be `\s*\{(.*)\}$`.  Returns
(group 2 if present, group 3). -/
def matchBundle (l : PyStr) : Option (Option PyStr × PyStr) :=
  match bundleBranchA l with
  | some (i, b) => some (some i, b)
  | none => (matchBraces l).map (fun b => ((none : Option PyStr), b))

/-- The `(bundle_uuid, value, type)` triple produced for one worksheet line
by `parse_worksheet_form`. -/
structure ParsedItem where
  bundle_uuid : Option PyStr
  value : Option PyStr
  type_ : PyStr
deriving DecidableEq

/-- Constructor `parse_worksheet_form_bundle`: uuid is the stripped brace group, the
value is the stripped bracket group when present and Python `None`
otherwise. -/
def parse_worksheet_form_bundle (inner : Option PyStr) (braces : PyStr) :
    ParsedItem :=
  ⟨some (pyStrip braces), inner.map pyStrip, ("bundle").data⟩

/-- Constructor `parse_worksheet_form_display`: `(None, match.group(0), 'directive')`.
Used as the constructor for both the display pattern and the field
pattern. -/
def parse_worksheet_form_display (g0 : PyStr) : ParsedItem :=
  ⟨none, some g0, ("directive").data⟩

/-- The per-line classification of `parse_worksheet_form`, applied to the
already-stripped line: the patterns of `parse_worksheet_parse_table` are
tried in the dict's CPython 2 iteration order (title, description, field,
bundle, display — see the header comment), first match wins, and a line
matching none of them is markup. -/
def classifyLine (l : PyStr) : ParsedItem :=
  match titleLikeAt (("title:").data) l with
  | some v => ⟨none, some v, ("title").data⟩
  | none =>
    match titleLikeAt (("description:").data) l with
    | some v => ⟨none, some v, ("description").data⟩
    | none =>
      match fieldAtLine l with
      | some g0 => parse_worksheet_form_display g0
      | none =>
        match matchBundle l with
        | some (inner, braces) => parse_worksheet_form_bundle inner braces
        | none =>
          match displayAt l with
          | some x => parse_worksheet_form_display x.1
          | none => ⟨none, some l, ("markup").data⟩

/-- One iteration of the loop body of `parse_worksheet_form`: strip the
line, drop it when the stripped line starts with `//`, otherwise classify
it. -/
def parseLine (line : PyStr) : Option ParsedItem :=
  let l := pyStrip line
  if l.take 2 = ("//").data then none else some (classifyLine l)

/-- Embedding of `parse_worksheet_form`: classify each line, skipping comment lines. -/
def parse_worksheet_form (form_result : List PyStr) : List ParsedItem :=
  form_result.filterMap parseLine

example : parse_worksheet_form [("[my favorite bundle]\x7ba1b2c3\x7d").data] =
    [⟨some ("a1b2c3").data, some ("my favorite bundle").data, ("bundle").data⟩] := by
  decide

example : parse_worksheet_form [("% display table").data] =
    [⟨none, some ("% display table").data, ("directive").data⟩] := by decide

example : parse_worksheet_form [("% title: My Worksheet").data] =
    [⟨none, some ("My Worksheet").data, ("title").data⟩] := by decide

example : parse_worksheet_form [("// just a comment").data] = [] := by decide

example : parse_worksheet_form [("just some markup").data] =
    [⟨none, some ("just some markup").data, ("markup").data⟩] := by decide

/-- The dict built by `expand_worksheet_item_info` for a directive, as a
record.  `none` models an absent key as well as a key whose value is
Python `None`; the only key whose absence is behaviourally observable is
`markup` (read by `get_worksheet_lines`), and in every branch that sets
`markup` its value is a string, so nothing is conflated. -/
structure DirectiveRecord where
  type_ : PyStr
  directive : Option PyStr
  name : Option PyStr
  path : Option PyStr
  value : Option PyStr
  display : Option PyStr
  markup : Option PyStr
deriving DecidableEq

/-- Embedding of `MATCH_DISPLAY_EXPR` = `.*% display (table|default|inline).*` with
`re.DOTALL`: the leading greedy `.*` makes the embedded directive match at
the latest possible start position, and the trailing `.*` extends group 0
to the whole input.  Returns group 1 of the latest occurrence. -/
def lastDisplay : PyStr → Option PyStr
  | [] => none
  | c :: rest =>
    match lastDisplay rest with
    | some m => some m
    | none => (displayAt (c :: rest)).map (fun x => x.2)

/-- Embedding of `MATCH_FIELD_EXPR` = `.*% ([^\:]+): (image|metadata)/(.*).*` with
`re.DOTALL`: latest-position occurrence, with group 3 running (across
newlines) to the end of the input.  Returns (group 1, group 2, group 3)
of the latest occurrence. -/
def lastFieldDotall : PyStr → Option (PyStr × PyStr × PyStr)
  | [] => none
  | c :: rest =>
    match lastFieldDotall rest with
    | some r => some r
    | none => fieldAtCore (c :: rest)

/-- The `type == 'directive'` branch of `expand_worksheet_item_info` on a
string: display grammar first (group 0 of either wrapped pattern is the
whole input, so `markup` is the whole directive text), then the field
grammar, then the degraded fallback dict
`{'type': 'directive', 'name': None, 'path': None, 'value': None}` —
whose `markup` and `display` keys are absent. -/
def expandDirective (s : PyStr) : DirectiveRecord :=
  match lastDisplay s with
  | some mode =>
    ⟨("directive").data, some (("display").data), none, none, none,
      some mode, some s⟩
  | none =>
    match lastFieldDotall s with
    | some x =>
      ⟨("directive").data, some x.2.1, some x.1, some x.2.2, none, none,
        some s⟩
    | none => ⟨("directive").data, none, none, none, none, none, none⟩

/-- A value stored in a worksheet item: a string, Python `None`, or a
directive record. -/
inductive ItemValue where
  | vstr (s : PyStr)
  | vnone
  | vdir (d : DirectiveRecord)
deriving DecidableEq

/-- Embedding of `expand_worksheet_item_info(value, type)`: expand directives, return
everything else unchanged.  Calling `.match` on a non-string raises
`TypeError`. -/
def expand_worksheet_item_info (value : ItemValue) (type_ : PyStr) :
    Except Unit ItemValue :=
  if type_ = ("directive").data then
    match value with
    | .vstr s => .ok (.vdir (expandDirective s))
    | _ => .error ()
  else .ok value

/-- The `bundle_info` dict a worksheet item references: its `uuid` key
(`none` models an absent key) and whether a `bundle_type` key is
present. -/
structure BundleInfo where
  uuid : Option PyStr
  hasBundleType : Bool
deriving DecidableEq

/-- An entry of `worksheet_info['items']`: `(bundle_info, value, type)`. -/
abbrev RenderItem := Option BundleInfo × ItemValue × PyStr

/-- The errors the modelled fragments can raise. -/
inductive RErr where
  | keyError
  | typeError
  | unmodeledFormat
  | usageError (msg : PyStr)
deriving DecidableEq

/-- Python `str()` conversion as used by `'...'.format` and `'%s' %`:
faithful for strings and `None`; the `str()` of a dict is not modelled
(no worksheet pipeline value reaches it and no theorem depends on it). -/
def pyFormatVal : ItemValue → Except RErr PyStr
  | .vstr s => .ok s
  | .vnone => .ok (("None").data)
  | .vdir _ => .error .unmodeledFormat

/-- The per-item body of the `get_worksheet_lines` generator. -/
def renderItem : RenderItem → Except RErr (List ItemValue)
  | (bi, v, t) =>
    if t = ("directive").data then
      match v with
      | .vdir d =>
        match d.markup with
        | some m => .ok [.vstr m]
        | none => .error .keyError
      | _ => .error .typeError
    else if t = ("title").data ∨ t = ("description").data then
      match pyFormatVal v with
      | .ok s => .ok [.vstr (('%' :: ' ' :: t) ++ ':' :: ' ' :: s)]
      | .error e => .error e
    else
      match bi with
      | none => .ok [v]
      | some info =>
        let warn : List ItemValue :=
          if info.hasBundleType then []
          else [.vstr (("// The following bundle reference is broken:").data)]
        match info.uuid with
        | none => .error .keyError
        | some u =>
          match pyFormatVal v with
          | .ok s => .ok (warn ++ [.vstr ('[' :: (s ++ ']' :: '{' :: (u ++ ['}'])))])
          | .error e => .error e

/-- Embedding of `get_worksheet_lines`: render each item in order; an exception raised
while rendering one item aborts the whole listing. -/
def get_worksheet_lines : List RenderItem → Except RErr (List ItemValue)
  | [] => .ok []
  | it :: rest =>
    match renderItem it with
    | .error e => .error e
    | .ok ls =>
      match get_worksheet_lines rest with
      | .error e => .error e
      | .ok more => .ok (ls ++ more)

/-- Glue between the classifier and the renderer: the worksheet model
stores the parsed triple, expanding directive values with
`expand_worksheet_item_info`, and hands the renderer a `bundle_info` dict
carrying the parsed uuid; `hasBT` says whether that dict has complete
metadata (a `bundle_type` key). -/
def parsedToRenderItem (hasBT : Bool) (p : ParsedItem) :
    Except RErr RenderItem :=
  match expand_worksheet_item_info
      (match p.value with | some s => .vstr s | none => .vnone) p.type_ with
  | .error _ => .error .typeError
  | .ok v => .ok (p.bundle_uuid.map (fun u => BundleInfo.mk (some u) hasBT), v, p.type_)

/-- Prepare a list of parsed items for rendering. -/
def prepItems (hasBT : Bool) : List ParsedItem → Except RErr (List RenderItem)
  | [] => .ok []
  | p :: ps =>
    match parsedToRenderItem hasBT p with
    | .error e => .error e
    | .ok r =>
      match prepItems hasBT ps with
      | .error e => .error e
      | .ok rs => .ok (r :: rs)

/-- The parse→render round trip on a single line, with directive values
expanded via `expand_worksheet_item_info` and complete bundle metadata. -/
def renderAfterClassify (s : PyStr) : Except RErr (List ItemValue) :=
  match prepItems true (parse_worksheet_form [s]) with
  | .error e => .error e
  | .ok ris => get_worksheet_lines ris

/-- Python's `line[:-1] if line.endswith('\n') else line`. -/
def stripTrailingNewline (l : PyStr) : PyStr :=
  if l.getLast? = some '\n' then l.dropLast else l

/-- The instructional header of `request_new_items`: the triple-quoted
literal, `.strip()`-ed and `%`-formatted with the worksheet name, split on
newlines. -/
def headerLines (name : PyStr) : List PyStr :=
  [("// Full-text editing for worksheet ").data ++ name ++
     (". This file is basically Markdown, except").data,
   ("// that is used for comments and that lines of the form \x7bbundle_spec\x7d are").data,
   ("// resolved as links to CodaLab bundles. You can even preface the curly braces").data,
   ("// with bracketed help text, like so: [some explanatory text]\x7bbundle_spec\x7d").data]

/-- The fields of `worksheet_info` that `request_new_items` reads. -/
structure WorksheetInfo where
  name : PyStr
  items : List RenderItem

/-- Embedding of `request_new_items`, with the external edit service abstracted: build
the template (header plus rendered lines), take the lines read back from
the edited file, strip one trailing newline from each, raise
`UsageError('No change made; aborting')` when the result equals the
template lines, and otherwise parse the edited lines. -/
def request_new_items (w : WorksheetInfo) (editedRaw : List PyStr) :
    Except RErr (List ParsedItem) :=
  match get_worksheet_lines w.items with
  | .error e => .error e
  | .ok rendered =>
    let template_lines : List ItemValue :=
      (headerLines w.name).map .vstr ++ rendered
    let form_result : List PyStr := editedRaw.map stripTrailingNewline
    if form_result.map ItemValue.vstr = template_lines then
      .error (.usageError (("No change made; aborting").data))
    else .ok (parse_worksheet_form form_result)

deriving instance DecidableEq for Except

example : renderAfterClassify (("\x7ba1b2c3\x7d").data) =
    .ok [.vstr (("[None]\x7ba1b2c3\x7d").data)] := by decide

example : renderAfterClassify (("[my favorite bundle]\x7ba1b2c3\x7d").data) =
    .ok [.vstr (("[my favorite bundle]\x7ba1b2c3\x7d").data)] := by decide

example : renderAfterClassify (("% display table").data) =
    .ok [.vstr (("% display table").data)] := by decide

example : get_worksheet_lines
    [(none, .vdir (expandDirective (("% bogus directive").data)), ("directive").data)] =
    .error .keyError := by decide

/-- The head of a `dropWhile` result fails the predicate. -/
theorem dropWhile_head_false {p : Char → Bool} :
    ∀ {l : PyStr} {c : Char} {t : PyStr}, l.dropWhile p = c :: t → p c = false := by
  intro l
  induction l with
  | nil => intro c t h; simp [List.dropWhile] at h
  | cons a l ih =>
    intro c t h
    by_cases hp : p a = true
    · rw [List.dropWhile_cons, if_pos hp] at h
      exact ih h
    · rw [List.dropWhile_cons, if_neg hp] at h
      cases h
      simpa using hp

/-- Python `strip` is idempotent. -/
theorem pyStrip_idem (l : PyStr) : pyStrip (pyStrip l) = pyStrip l := by
  show List.rdropWhile isPySpace
      ((List.rdropWhile isPySpace (l.dropWhile isPySpace)).dropWhile isPySpace) =
    List.rdropWhile isPySpace (l.dropWhile isPySpace)
  have h1 : (List.rdropWhile isPySpace (l.dropWhile isPySpace)).dropWhile isPySpace =
      List.rdropWhile isPySpace (l.dropWhile isPySpace) := by
    rcases hpre : List.rdropWhile isPySpace (l.dropWhile isPySpace) with _ | ⟨c, t⟩
    · simp
    · have hB : List.rdropWhile isPySpace (l.dropWhile isPySpace) <+: l.dropWhile isPySpace :=
        List.rdropWhile_prefix _ _
      rw [hpre] at hB
      obtain ⟨t2, ht2⟩ := hB
      have hc : isPySpace c = false := by
        refine dropWhile_head_false (l := l) (t := t ++ t2) ?_
        rw [← ht2]
        simp
      simp [List.dropWhile_cons, hc]
  rw [h1, List.rdropWhile_idempotent]

/-- A successful literal match decomposes the input. -/
theorem dropLit_append :
    ∀ (pat l r : PyStr), dropLit pat l = some r → l = pat ++ r := by
  intro pat
  induction pat with
  | nil => intro l r h; simp [dropLit] at h; simp [h]
  | cons c pat ih =>
    intro l r h
    match l with
    | [] => simp [dropLit] at h
    | x :: l' =>
      rw [dropLit] at h
      by_cases hx : x = c
      · rw [if_pos hx] at h
        rw [hx, ih l' r h]
        rfl
      · rw [if_neg hx] at h
        cases h

/-- A line whose first character is not `%` matches neither title shape. -/
theorem titleLikeAt_head {kw : PyStr} {c : Char} {t : PyStr} (h : c ≠ '%') :
    titleLikeAt kw (c :: t) = none := by
  simp [titleLikeAt, h]

/-- A line whose first character is not `%` does not match the field
pattern. -/
theorem fieldAtLine_head {c : Char} {t : PyStr} (h : c ≠ '%') :
    fieldAtLine (c :: t) = none := by
  have e : ("% ").data = '%' :: ' ' :: [] := rfl
  simp [fieldAtLine, fieldAtCore, e, dropLit, h]

/-- A line whose first character is neither whitespace nor `{` does not
match the braces tail. -/
theorem matchBraces_head {c : Char} {t : PyStr} (hs : isPySpace c = false)
    (hb : c ≠ '{') : matchBraces (c :: t) = none := by
  simp [matchBraces, List.dropWhile_cons, hs, hb]

/-- A line whose first character is not `[` fails the bracketed bundle
branch. -/
theorem bundleBranchA_head {c : Char} {t : PyStr} (h : c ≠ '[') :
    bundleBranchA (c :: t) = none := by
  simp [bundleBranchA, h]

/-- A line whose first character is not `%` does not match the display
pattern. -/
theorem displayAt_head {c : Char} {t : PyStr} (h : c ≠ '%') :
    displayAt (c :: t) = none := by
  have e : ("% display ").data = '%' :: (" display ").data := rfl
  simp [displayAt, e, dropLit, h]

/-- C3: classification is total: for every single-line string, the
classifier never fails and yields exactly one item, except that a line
whose stripped form begins with `//` yields no item, whatever follows. -/
theorem c3_classify_total (s : PyStr) :
    ((pyStrip s).take 2 = ("//").data → parse_worksheet_form [s] = [])
    ∧ ((pyStrip s).take 2 ≠ ("//").data →
        parse_worksheet_form [s] = [classifyLine (pyStrip s)]) := by
  constructor <;> intro h <;>
    simp [parse_worksheet_form, List.filterMap, parseLine, h]

theorem c3_classify_total_witness :
    parse_worksheet_form [("// any text, even [x]\x7by\x7d").data] = []
    ∧ parse_worksheet_form [("plain text").data] =
        [classifyLine (pyStrip (("plain text").data))] :=
  ⟨(c3_classify_total _).1 (by decide), (c3_classify_total _).2 (by decide)⟩

/-- C10: classification is insensitive to outer whitespace: a line and its
stripped form classify identically, because every line is stripped before
the comment check and the pattern matching. -/
theorem c10_strip_invariant (s : PyStr) :
    parse_worksheet_form [pyStrip s] = parse_worksheet_form [s] := by
  simp [parse_worksheet_form, List.filterMap, parseLine, pyStrip_idem]

/-- C5: directive text matching neither the display grammar nor the field
grammar expands, without an error, to the degraded record in which name,
path, value and display are all empty or absent. -/
theorem c5_directive_fallback (s : PyStr) (h1 : lastDisplay s = none)
    (h2 : lastFieldDotall s = none) :
    expand_worksheet_item_info (.vstr s) (("directive").data) =
      .ok (.vdir ⟨("directive").data, none, none, none, none, none, none⟩) := by
  simp [expand_worksheet_item_info, expandDirective, h1, h2]

theorem c5_directive_fallback_witness :
    expand_worksheet_item_info (.vstr (("% display pie chart").data))
        (("directive").data) =
      .ok (.vdir ⟨("directive").data, none, none, none, none, none, none⟩) :=
  c5_directive_fallback _ (by decide) (by decide)

/-- C6: the expander populates at most one of the display sub-record and
the field sub-record: display is tried first (when the display grammar
matches, the field fields stay empty even if the field grammar also
matches), and the display field is populated only when the display grammar
matches. -/
theorem c6_directive_exclusive (s : PyStr) :
    ((expandDirective s).display = none ∨
      ((expandDirective s).name = none ∧ (expandDirective s).path = none))
    ∧ (lastDisplay s ≠ none →
        (expandDirective s).display = lastDisplay s ∧
        (expandDirective s).name = none ∧ (expandDirective s).path = none)
    ∧ (lastDisplay s = none → (expandDirective s).display = none) := by
  unfold expandDirective
  rcases h : lastDisplay s with _ | m
  · rcases h2 : lastFieldDotall s with _ | x <;> simp [h, h2]
  · simp [h]

theorem c6_directive_exclusive_witness :
    lastFieldDotall (("% display table: image/x").data) ≠ none
    ∧ (expandDirective (("% display table: image/x").data)).display =
        some (("table").data)
    ∧ (expandDirective (("% display table: image/x").data)).name = none
    ∧ (expandDirective (("% display table: image/x").data)).path = none := by
  have h := (c6_directive_exclusive (("% display table: image/x").data)).2.1
    (by decide)
  exact ⟨by decide, h.1.trans (by decide), h.2.1, h.2.2⟩

/-- C1 fails as stated: the non-comment, non-broken-reference line
`{a1b2c3}` classifies as a bundle item with value `None`, and rendering
that item (with complete metadata) yields `[None]{a1b2c3}`, not the
original line. -/
theorem c1_roundtrip_counterexample :
    renderAfterClassify (("\x7ba1b2c3\x7d").data) =
      .ok [.vstr (("[None]\x7ba1b2c3\x7d").data)]
    ∧ ("[None]\x7ba1b2c3\x7d").data ≠ ("\x7ba1b2c3\x7d").data := by decide

/-- C1 (amended): the parse-render round trip is the identity on every
trimmed non-comment line that matches none of the five grammars and is
therefore classified as markup; grammar-matching lines re-render in a
canonical form that can differ from the original. -/
theorem c1_roundtrip_markup (s : PyStr) (h0 : pyStrip s = s)
    (h1 : s.take 2 ≠ ("//").data)
    (h2 : titleLikeAt (("title:").data) s = none)
    (h3 : titleLikeAt (("description:").data) s = none)
    (h4 : fieldAtLine s = none) (h5 : matchBundle s = none)
    (h6 : displayAt s = none) :
    renderAfterClassify s = .ok [.vstr s] := by
  have hc : classifyLine s = ⟨none, some s, ("markup").data⟩ := by
    unfold classifyLine
    rw [h2, h3, h4, h5, h6]
  have hp : parse_worksheet_form [s] = [⟨none, some s, ("markup").data⟩] := by
    rw [← hc]
    simp [parse_worksheet_form, List.filterMap, parseLine, h0, h1]
  unfold renderAfterClassify
  rw [hp]
  rfl

theorem c1_roundtrip_markup_witness :
    renderAfterClassify (("This is **just some markdown**.").data) =
      .ok [.vstr (("This is **just some markdown**.").data)] :=
  c1_roundtrip_markup _ (by decide) (by decide) (by decide) (by decide)
    (by decide) (by decide) (by decide)

/-- C2 fails on the code: the line `% title: image/x` matches the field
grammar (and neither the bundle nor the display grammar), so under the
claimed order bundle, display, field, title, description the first match
would be the field pattern and the item kind would be `directive`; the
dict's actual CPython 2 iteration order tries the title pattern first and
the code produces a `title` item. -/
theorem c2_order_eval :
    fieldAtLine (("% title: image/x").data) = some (("% title: image/x").data)
    ∧ matchBundle (("% title: image/x").data) = none
    ∧ displayAt (("% title: image/x").data) = none
    ∧ parse_worksheet_form [("% title: image/x").data] =
        [⟨none, some (("image/x").data), ("title").data⟩] := by decide

/-- C4 fails on the code: the degraded record produced by
`expand_worksheet_item_info` for unmatched directive text has no `markup`
key, so rendering a directive item holding it raises `KeyError` in
`get_worksheet_lines` — rendering does throw on this worksheet item. -/
theorem c4_render_keyerror :
    expandDirective (("% bogus directive").data) =
      ⟨("directive").data, none, none, none, none, none, none⟩
    ∧ get_worksheet_lines
        [(none, .vdir (expandDirective (("% bogus directive").data)),
          ("directive").data)] = .error .keyError := by decide

/-- C8 fails as stated: the display pattern occurs inside the line
`x % display table` (the expander's non-anchored search finds it), yet the
classifier, whose compiled pattern is matched only at the start of the
line by `re.match` without the dot-matches-all wrappers, classifies the
line as markup, not as a directive. -/
theorem c8_display_counterexample :
    lastDisplay (("x % display table").data) = some (("table").data)
    ∧ parse_worksheet_form [("x % display table").data] =
        [⟨none, some (("x % display table").data), ("markup").data⟩] := by
  decide

/-- C7: every line whose stripped form matches the bundle grammar
classifies as a bundle item whose uuid is the trimmed brace group and
whose value is the trimmed bracket group when present and `None`
otherwise. -/
theorem c7_bundle_decomposition (s : PyStr) (inner : Option PyStr)
    (braces : PyStr) (h : matchBundle (pyStrip s) = some (inner, braces)) :
    parse_worksheet_form [s] =
      [⟨some (pyStrip braces), inner.map pyStrip, ("bundle").data⟩] := by
  obtain ⟨c, t, hl, hslash, hpct⟩ :
      ∃ c t, pyStrip s = c :: t ∧ c ≠ '/' ∧ c ≠ '%' := by
    rcases hl : pyStrip s with _ | ⟨c, t⟩
    · rw [hl] at h
      simp [matchBundle, bundleBranchA, matchBraces, List.dropWhile] at h
    · rw [hl] at h
      refine ⟨c, t, rfl, ?_, ?_⟩
      · intro hc
        subst hc
        unfold matchBundle at h
        rw [@bundleBranchA_head '/' t (by decide)] at h
        rw [@matchBraces_head '/' t (by decide) (by decide)] at h
        simp at h
      · intro hc
        subst hc
        unfold matchBundle at h
        rw [@bundleBranchA_head '%' t (by decide)] at h
        rw [@matchBraces_head '%' t (by decide) (by decide)] at h
        simp at h
  have hcomment : (pyStrip s).take 2 ≠ ("//").data := by
    rw [hl]
    intro hh
    have e2 : (c :: t).take 2 = c :: t.take 1 := rfl
    rw [e2, show ("//").data = ['/', '/'] from rfl] at hh
    exact hslash (List.cons.injEq .. ▸ hh).1
  have hclass : classifyLine (pyStrip s) =
      ⟨some (pyStrip braces), inner.map pyStrip, ("bundle").data⟩ := by
    unfold classifyLine
    rw [hl] at h ⊢
    rw [titleLikeAt_head hpct, titleLikeAt_head hpct, fieldAtLine_head hpct, h]
    rfl
  rw [← hclass]
  simp [parse_worksheet_form, List.filterMap, parseLine, hcomment]

theorem c7_bundle_decomposition_witness :
    matchBundle (pyStrip (("[my favorite bundle]\x7ba1b2c3\x7d").data)) =
      some (some (("my favorite bundle").data), ("a1b2c3").data)
    ∧ parse_worksheet_form [("[my favorite bundle]\x7ba1b2c3\x7d").data] =
        [⟨some (("a1b2c3").data), some (("my favorite bundle").data),
          ("bundle").data⟩] :=
  ⟨by decide,
   (c7_bundle_decomposition (("[my favorite bundle]\x7ba1b2c3\x7d").data)
      (some (("my favorite bundle").data)) (("a1b2c3").data)
      (by decide)).trans (by decide)⟩

/-- C8 (amended): the classifier recognizes the display-directive grammar
only at the start of the stripped line (its pattern is compiled without
the dot-matches-all wrappers and matched with `re.match`); every line
whose stripped form begins with the display pattern yields a directive
item.  The anywhere-in-the-blob search belongs to the directive expander,
not to the classifier. -/
theorem c8_display_anchored (s : PyStr)
    (h : displayAt (pyStrip s) ≠ none) :
    ∃ v, parse_worksheet_form [s] = [⟨none, some v, ("directive").data⟩] := by
  obtain ⟨x, hx⟩ : ∃ x, displayAt (pyStrip s) = some x := by
    rcases hd : displayAt (pyStrip s) with _ | x
    · exact absurd hd h
    · exact ⟨x, rfl⟩
  obtain ⟨r, hr⟩ : ∃ r, dropLit (("% display ").data) (pyStrip s) = some r := by
    rcases hd : dropLit (("% display ").data) (pyStrip s) with _ | r
    · unfold displayAt at hx
      rw [hd] at hx
      simp at hx
    · exact ⟨r, rfl⟩
  have hskel : pyStrip s =
      '%' :: ' ' :: 'd' :: 'i' :: 's' :: 'p' :: 'l' :: 'a' :: 'y' :: ' ' :: r :=
    dropLit_append _ _ _ hr
  have hcomment : (pyStrip s).take 2 ≠ ("//").data := by
    rw [hskel]
    intro hh
    have e2 : ('%' :: ' ' :: 'd' :: 'i' :: 's' :: 'p' :: 'l' :: 'a' :: 'y' ::
        ' ' :: r).take 2 = ['%', ' '] := rfl
    rw [e2] at hh
    exact absurd hh (by decide)
  have ht : titleLikeAt (("title:").data)
      ('%' :: ' ' :: 'd' :: 'i' :: 's' :: 'p' :: 'l' :: 'a' :: 'y' :: ' ' :: r) =
      none := rfl
  have hd2 : titleLikeAt (("description:").data)
      ('%' :: ' ' :: 'd' :: 'i' :: 's' :: 'p' :: 'l' :: 'a' :: 'y' :: ' ' :: r) =
      none := rfl
  have hb : matchBundle
      ('%' :: ' ' :: 'd' :: 'i' :: 's' :: 'p' :: 'l' :: 'a' :: 'y' :: ' ' :: r) =
      none := rfl
  rcases hf : fieldAtLine
      ('%' :: ' ' :: 'd' :: 'i' :: 's' :: 'p' :: 'l' :: 'a' :: 'y' :: ' ' :: r)
      with _ | g0
  · refine ⟨x.1, ?_⟩
    have hclass : classifyLine (pyStrip s) = parse_worksheet_form_display x.1 := by
      unfold classifyLine
      rw [hskel] at hx ⊢
      rw [ht, hd2, hf, hb, hx]
    rw [show (⟨none, some x.1, ("directive").data⟩ : ParsedItem) =
      parse_worksheet_form_display x.1 from rfl, ← hclass]
    simp [parse_worksheet_form, List.filterMap, parseLine, hcomment]
  · refine ⟨g0, ?_⟩
    have hclass : classifyLine (pyStrip s) = parse_worksheet_form_display g0 := by
      unfold classifyLine
      rw [hskel]
      rw [ht, hd2, hf]
    rw [show (⟨none, some g0, ("directive").data⟩ : ParsedItem) =
      parse_worksheet_form_display g0 from rfl, ← hclass]
    simp [parse_worksheet_form, List.filterMap, parseLine, hcomment]

theorem c8_display_anchored_witness :
    ∃ v, parse_worksheet_form [("% display inline extra words").data] =
      [⟨none, some v, ("directive").data⟩] :=
  c8_display_anchored _ (by decide)

/-- C9: in `request_new_items`, when the edited lines (after stripping one
trailing newline each) equal the template lines — header plus rendered
items — the `UsageError` for a no-op edit is raised and no item list is
produced; otherwise the edited lines are parsed into the new item list. -/
theorem c9_no_change (w : WorksheetInfo) (editedRaw : List PyStr)
    (rendered : List ItemValue)
    (hr : get_worksheet_lines w.items = .ok rendered) :
    ((editedRaw.map stripTrailingNewline).map ItemValue.vstr =
        (headerLines w.name).map ItemValue.vstr ++ rendered →
      request_new_items w editedRaw =
        .error (.usageError (("No change made; aborting").data)))
    ∧ ((editedRaw.map stripTrailingNewline).map ItemValue.vstr ≠
        (headerLines w.name).map ItemValue.vstr ++ rendered →
      request_new_items w editedRaw =
        .ok (parse_worksheet_form (editedRaw.map stripTrailingNewline))) := by
  have step : request_new_items w editedRaw =
      (if (editedRaw.map stripTrailingNewline).map ItemValue.vstr =
          (headerLines w.name).map ItemValue.vstr ++ rendered then
        .error (.usageError (("No change made; aborting").data))
      else .ok (parse_worksheet_form (editedRaw.map stripTrailingNewline))) := by
    unfold request_new_items
    rw [hr]
  constructor <;> intro h
  · rw [step, if_pos h]
  · rw [step, if_neg h]

theorem c9_no_change_witness :
    request_new_items ⟨("w").data, []⟩ (headerLines (("w").data)) =
      .error (.usageError (("No change made; aborting").data))
    ∧ request_new_items ⟨("w").data, []⟩ [("% title: New").data] =
        .ok (parse_worksheet_form ([("% title: New").data].map
          stripTrailingNewline)) :=
  ⟨(c9_no_change ⟨("w").data, []⟩ (headerLines (("w").data)) [] rfl).1
     (by decide),
   (c9_no_change ⟨("w").data, []⟩ [("% title: New").data] [] rfl).2
     (by decide)⟩
